import Mathlib

/-!
Verification of the live environmental-dashboard core (final.py / test.py):
the elapsed-time clamp, the linear "accrued so far today" rate model, the
tolerant CSV date normalisation and aggregation, the load-failure fallback,
the daily-total cache contract, and the comparison-ratio computations.

Numeric values (Python floats) are modelled as exact rationals `ℚ`; the
algebraic contracts of the spec are stated and proved over that model.
-/

/-- `SECONDS_PER_DAY = 24 * 60 * 60` (final.py line 9). -/
def SECONDS_PER_DAY : ℚ := 24 * 60 * 60

/-- `TOTAL_DAILY_HA = 437.16` (final.py line 15). -/
def TOTAL_DAILY_HA : ℚ := 437.16

/-- `HA_PER_SECOND = TOTAL_DAILY_HA / SECONDS_PER_DAY` (final.py line 16). -/
def HA_PER_SECOND : ℚ := TOTAL_DAILY_HA / SECONDS_PER_DAY

/-- `TOTAL_DAILY_PLASTIC_KG = 1_260_273_973` (final.py line 18). -/
def TOTAL_DAILY_PLASTIC_KG : ℚ := 1260273973

/-- `PLASTIC_KG_PER_SECOND` (final.py line 19). -/
def PLASTIC_KG_PER_SECOND : ℚ := TOTAL_DAILY_PLASTIC_KG / SECONDS_PER_DAY

/-- `TOTAL_DAILY_OCEAN_PLASTIC_KG = 30_136_986` (final.py line 21). -/
def TOTAL_DAILY_OCEAN_PLASTIC_KG : ℚ := 30136986

/-- `OCEAN_PLASTIC_KG_PER_SECOND` (final.py line 22). -/
def OCEAN_PLASTIC_KG_PER_SECOND : ℚ := TOTAL_DAILY_OCEAN_PLASTIC_KG / SECONDS_PER_DAY

/-- `TOTAL_DAILY_MICROPLASTIC_MG = 714.0` (final.py line 24). -/
def TOTAL_DAILY_MICROPLASTIC_MG : ℚ := 714.0

/-- `MICROPLASTIC_MG_PER_SECOND` (final.py line 25). -/
def MICROPLASTIC_MG_PER_SECOND : ℚ := TOTAL_DAILY_MICROPLASTIC_MG / SECONDS_PER_DAY

/-- `TOTAL_DAILY_ACRES_LOST = 202_513` (final.py line 27). -/
def TOTAL_DAILY_ACRES_LOST : ℚ := 202513

/-- `ACRES_PER_SECOND` (final.py line 28). -/
def ACRES_PER_SECOND : ℚ := TOTAL_DAILY_ACRES_LOST / SECONDS_PER_DAY

/-- `WHITE_HOUSE_AREA_HA = 7.3` (test.py line 38). -/
def WHITE_HOUSE_AREA_HA : ℚ := 7.3

/-- `GREAT_PYRAMID_WEIGHT_METRIC_TONS = 5_750_000` (test.py line 35). -/
def GREAT_PYRAMID_WEIGHT_METRIC_TONS : ℚ := 5750000

/-- Shallow embedding of a timezone-aware `datetime` instant for the purposes
of the rate model.  The only attribute of `now` the core ever reads is the raw
difference `(now - now.replace(hour=0, minute=0, second=0, microsecond=0))
.total_seconds()` (final.py lines 34-35); under a clock anomaly (e.g. a
daylight-saving transition in the fixed timezone) this raw difference may lie
outside `[0, 86400]`, so it is kept as an unconstrained rational. -/
structure Datetime where
  sinceMidnight : ℚ
deriving DecidableEq

/-- `time_elapsed_seconds` (final.py lines 33-36): the raw seconds since local
midnight, clamped by `max(0, min(elapsed, SECONDS_PER_DAY))`. -/
def time_elapsed_seconds (now : Datetime) : ℚ :=
  max 0 (min now.sinceMidnight SECONDS_PER_DAY)

/-- `hectares_lost_so_far` (final.py lines 38-39). -/
def hectares_lost_so_far (now : Datetime) : ℚ :=
  HA_PER_SECOND * time_elapsed_seconds now

/-- `plastic_produced_so_far` (final.py lines 41-42). -/
def plastic_produced_so_far (now : Datetime) : ℚ :=
  PLASTIC_KG_PER_SECOND * time_elapsed_seconds now

/-- `ocean_plastic_entered_so_far` (final.py lines 44-45). -/
def ocean_plastic_entered_so_far (now : Datetime) : ℚ :=
  OCEAN_PLASTIC_KG_PER_SECOND * time_elapsed_seconds now

/-- `microplastic_ingested_so_far` (final.py lines 47-48). -/
def microplastic_ingested_so_far (now : Datetime) : ℚ :=
  MICROPLASTIC_MG_PER_SECOND * time_elapsed_seconds now

/-- `acres_lost_so_far` (final.py lines 50-51). -/
def acres_lost_so_far (now : Datetime) : ℚ :=
  ACRES_PER_SECOND * time_elapsed_seconds now

/-- `emissions_so_far` (final.py lines 90-94): recomputes the clamped elapsed
seconds inline and scales the daily total by the elapsed fraction of the day. -/
def emissions_so_far (now : Datetime) (total_today : ℚ) : ℚ :=
  let elapsed_seconds := max 0 (min now.sinceMidnight SECONDS_PER_DAY)
  total_today * (elapsed_seconds / SECONDS_PER_DAY)

/-- The clamp computed inline by `emissions_so_far` is exactly
`time_elapsed_seconds`. -/
theorem emissions_so_far_eq (now : Datetime) (T : ℚ) :
    emissions_so_far now T = T * (time_elapsed_seconds now / SECONDS_PER_DAY) := rfl

/-- C1: the accrued value equals `dailyTotal × elapsedSeconds / 86400`; it is
`0` at `elapsedSeconds = 0`, exactly the daily total at
`elapsedSeconds = 86400`, and `0` for every elapsed time when the total is
`0`; the same linear form holds for each fixed-constant rate function. -/
theorem accrued_linear_form (now : Datetime) (T : ℚ) :
    emissions_so_far now T = T * (time_elapsed_seconds now / 86400) ∧
    (time_elapsed_seconds now = 0 → emissions_so_far now T = 0) ∧
    (time_elapsed_seconds now = 86400 → emissions_so_far now T = T) ∧
    emissions_so_far now 0 = 0 ∧
    hectares_lost_so_far now = TOTAL_DAILY_HA * (time_elapsed_seconds now / 86400) ∧
    plastic_produced_so_far now
      = TOTAL_DAILY_PLASTIC_KG * (time_elapsed_seconds now / 86400) ∧
    ocean_plastic_entered_so_far now
      = TOTAL_DAILY_OCEAN_PLASTIC_KG * (time_elapsed_seconds now / 86400) ∧
    microplastic_ingested_so_far now
      = TOTAL_DAILY_MICROPLASTIC_MG * (time_elapsed_seconds now / 86400) ∧
    acres_lost_so_far now = TOTAL_DAILY_ACRES_LOST * (time_elapsed_seconds now / 86400) := by
  have hday : SECONDS_PER_DAY = 86400 := by norm_num [SECONDS_PER_DAY]
  have hmain : emissions_so_far now T = T * (time_elapsed_seconds now / 86400) := by
    rw [emissions_so_far_eq, hday]
  refine ⟨hmain, ?_, ?_, ?_, ?_, ?_, ?_, ?_, ?_⟩
  · intro h; rw [hmain, h]; ring
  · intro h; rw [hmain, h]; ring
  · rw [emissions_so_far_eq]; ring
  · rw [hectares_lost_so_far, HA_PER_SECOND, hday]; ring
  · rw [plastic_produced_so_far, PLASTIC_KG_PER_SECOND, hday]; ring
  · rw [ocean_plastic_entered_so_far, OCEAN_PLASTIC_KG_PER_SECOND, hday]; ring
  · rw [microplastic_ingested_so_far, MICROPLASTIC_MG_PER_SECOND, hday]; ring
  · rw [acres_lost_so_far, ACRES_PER_SECOND, hday]; ring

/-- C1 witness: at a full elapsed day the accrued emissions equal the daily
total exactly, evaluated at the concrete instant `sinceMidnight = 86400` and
total `5`. -/
theorem accrued_linear_form_witness : emissions_so_far ⟨86400⟩ 5 = 5 :=
  (accrued_linear_form ⟨86400⟩ 5).2.2.1 (by norm_num [time_elapsed_seconds, SECONDS_PER_DAY])

/-- C2: for a fixed non-negative daily total, the accrued value is monotone
non-decreasing in the elapsed seconds. -/
theorem accrued_monotone (T : ℚ) (t1 t2 : Datetime) (hT : 0 ≤ T)
    (h : time_elapsed_seconds t1 ≤ time_elapsed_seconds t2) :
    emissions_so_far t1 T ≤ emissions_so_far t2 T := by
  rw [emissions_so_far_eq, emissions_so_far_eq]
  have hpos : (0 : ℚ) < SECONDS_PER_DAY := by norm_num [SECONDS_PER_DAY]
  exact mul_le_mul_of_nonneg_left (div_le_div_of_nonneg_right h hpos.le) hT

/-- C2 witness: monotonicity applied at the concrete instants with raw elapsed
`100` and `43200` seconds and daily total `2`. -/
theorem accrued_monotone_witness : emissions_so_far ⟨100⟩ 2 ≤ emissions_so_far ⟨43200⟩ 2 :=
  accrued_monotone 2 ⟨100⟩ ⟨43200⟩ (by norm_num)
    (by norm_num [time_elapsed_seconds, SECONDS_PER_DAY])

/-- C3: `time_elapsed_seconds` always lies in `[0, 86400]`, even when the raw
subtraction is negative (instant `⟨-3600⟩`) or exceeds a day (instant
`⟨90000⟩`). -/
theorem time_elapsed_seconds_in_range :
    (∀ t : Datetime, 0 ≤ time_elapsed_seconds t ∧ time_elapsed_seconds t ≤ 86400) ∧
    time_elapsed_seconds ⟨-3600⟩ = 0 ∧ time_elapsed_seconds ⟨90000⟩ = 86400 := by
  refine ⟨fun t => ⟨le_max_left _ _, ?_⟩, ?_, ?_⟩
  · apply max_le (by norm_num)
    calc min t.sinceMidnight SECONDS_PER_DAY ≤ SECONDS_PER_DAY := min_le_right _ _
      _ = 86400 := by norm_num [SECONDS_PER_DAY]
  · norm_num [time_elapsed_seconds, SECONDS_PER_DAY]
  · norm_num [time_elapsed_seconds, SECONDS_PER_DAY]

/-- A calendar date, the result of `.date()` on a parsed `datetime`. -/
structure Date where
  year : ℕ
  month : ℕ
  day : ℕ
deriving DecidableEq

/-- Split a character list into the groups separated by `/`, mirroring how
`strptime` consumes a `"a/b/c"` pattern. -/
def splitSlash : List Char → List (List Char)
  | [] => [[]]
  | c :: cs =>
      if c = '/' then [] :: splitSlash cs
      else
        match splitSlash cs with
        | [] => [[c]]
        | g :: gs => (c :: g) :: gs

/-- Split a character list into the groups separated by `-`, the separator
shape of ISO date strings handled by the generic fallback parser. -/
def splitDash : List Char → List (List Char)
  | [] => [[]]
  | c :: cs =>
      if c = '-' then [] :: splitDash cs
      else
        match splitDash cs with
        | [] => [[c]]
        | g :: gs => (c :: g) :: gs

/-- Interpret a non-empty all-digit character group as a natural number. -/
def digitsToNat : List Char → Option ℕ
  | [] => none
  | l => if l.all Char.isDigit then some (l.foldl (fun a c => 10 * a + (c.toNat - 48)) 0)
         else none

/-- Gregorian leap-year test, as used by `datetime` date validation. -/
def isLeap (y : ℕ) : Bool :=
  y % 4 = 0 && (y % 100 ≠ 0 || y % 400 = 0)

/-- Number of days in a month, as used by `datetime` date validation. -/
def daysInMonth (y m : ℕ) : ℕ :=
  if m = 1 ∨ m = 3 ∨ m = 5 ∨ m = 7 ∨ m = 8 ∨ m = 10 ∨ m = 12 then 31
  else if m = 4 ∨ m = 6 ∨ m = 9 ∨ m = 11 then 30
  else if m = 2 then (if isLeap y then 29 else 28)
  else 0

/-- Validate three parsed fields as a calendar date: `%m` and `%d` are one or
two digits, `%Y` is four digits, the month is in `1..12` and the day fits the
month. -/
def mkValidDate (mg dg yg : List Char) : Option Date :=
  match digitsToNat mg, digitsToNat dg, digitsToNat yg with
  | some m, some d, some y =>
      if mg.length ≤ 2 ∧ dg.length ≤ 2 ∧ yg.length = 4 ∧
         1 ≤ m ∧ m ≤ 12 ∧ 1 ≤ d ∧ d ≤ daysInMonth y m
      then some ⟨y, m, d⟩ else none
  | _, _, _ => none

/-- `datetime.strptime(date_str, "%m/%d/%Y").date()` (final.py line 72, first
format of line 70): succeeds exactly on `month/day/year` strings denoting a
valid calendar date. -/
def strptime_mdy (s : String) : Option Date :=
  match splitSlash s.data with
  | [mg, dg, yg] => mkValidDate mg dg yg
  | _ => none

/-- `datetime.strptime(date_str, "%d/%m/%Y").date()` (final.py line 72, second
format of line 70): succeeds exactly on `day/month/year` strings denoting a
valid calendar date. -/
def strptime_dmy (s : String) : Option Date :=
  match splitSlash s.data with
  | [dg, mg, yg] => mkValidDate mg dg yg
  | _ => none

/-- Modelled from the spec: the permissive generic fallback parser
`pd.to_datetime(date_str).date()` (final.py line 76) is external library code
not contained in the repository; the spec describes it only as "a permissive
generic date parser" reached when both fixed formats fail.  It is modelled as
accepting ISO `YYYY-MM-DD` strings denoting valid calendar dates and rejecting
non-date strings such as `"not-a-date"`. -/
def to_datetime (s : String) : Option Date :=
  match splitDash s.data with
  | [ys, ms, ds] =>
      match digitsToNat ys, digitsToNat ms, digitsToNat ds with
      | some y, some m, some d =>
          if ys.length = 4 ∧ ms.length = 2 ∧ ds.length = 2 ∧
             1 ≤ m ∧ m ≤ 12 ∧ 1 ≤ d ∧ d ≤ daysInMonth y m
          then some ⟨y, m, d⟩ else none
      | _, _, _ => none
  | _ => none

/-- `parse_date` (final.py lines 69-78): try `%m/%d/%Y`, then `%d/%m/%Y`, then
the generic fallback; the first success wins, and `None` is returned when all
three attempts fail. -/
def parse_date (s : String) : Option Date :=
  match strptime_mdy s with
  | some d => some d
  | none =>
      match strptime_dmy s with
      | some d => some d
      | none => to_datetime s

/-- C4: date normalization is first-match-wins in the fixed order
`%m/%d/%Y`, then `%d/%m/%Y`, then the generic fallback; `"03/04/2024"` parses
as March 4, 2024, even though the day/month/year reading (April 3, 2024)
exists and would have been chosen had the order been reversed. -/
theorem parse_date_first_match_wins :
    (∀ s d, strptime_mdy s = some d → parse_date s = some d) ∧
    (∀ s d, strptime_mdy s = none → strptime_dmy s = some d → parse_date s = some d) ∧
    (∀ s, strptime_mdy s = none → strptime_dmy s = none → parse_date s = to_datetime s) ∧
    parse_date "03/04/2024" = some ⟨2024, 3, 4⟩ ∧
    strptime_dmy "03/04/2024" = some ⟨2024, 4, 3⟩ := by
  refine ⟨fun s d h => ?_, fun s d h1 h2 => ?_, fun s h1 h2 => ?_, by decide, by decide⟩
  · simp [parse_date, h]
  · simp [parse_date, h1, h2]
  · simp [parse_date, h1, h2]

/-- C4 witness: the first-match-wins clause applied at the concrete string
`"12/25/2024"`, whose month/day/year reading succeeds. -/
theorem parse_date_first_match_wins_witness :
    parse_date "12/25/2024" = some ⟨2024, 12, 25⟩ :=
  parse_date_first_match_wins.1 "12/25/2024" ⟨2024, 12, 25⟩ (by decide)

/-- One row of the source dataset, as read by
`pd.read_csv(FILE_PATH, names=["region", "date", "sector", "co2_mt"])`
(final.py line 67): region, free-form date string, sector, quantity in
millions of metric tons. -/
structure Row where
  region : String
  date : String
  sector : String
  co2_mt : ℚ

/-- `datetime.now(TZ).date().replace(year=2024)` (final.py line 83): the
current calendar date with its year forced to the dataset reference year. -/
def replaceYear2024 (d : Date) : Date :=
  ⟨2024, d.month, d.day⟩

/-- `load_total_today_emissions` (final.py lines 66-88), with the file read
abstracted to the list of rows it yields and the wall clock abstracted to the
current calendar date: normalise each row's date with `parse_date`, drop rows
whose date failed to parse (`dropna`), keep the rows whose date equals today's
date with year forced to 2024, sum their `co2_mt` column and scale by
`1_000_000`. -/
def load_total_today_emissions (rows : List Row) (currentDate : Date) : ℚ :=
  let withDates := rows.filterMap fun r => (parse_date r.date).map fun d => (d, r.co2_mt)
  let today_2024 := replaceYear2024 currentDate
  let today_data := withDates.filter fun p => p.1 == today_2024
  ((today_data.map fun p => p.2).sum) * 1000000

/-- C5: a row whose date string fails all three parse attempts is excluded
from the aggregate sum, wherever it sits in the dataset, and
`"not-a-date"` is such a string. -/
theorem unparseable_row_excluded :
    parse_date "not-a-date" = none ∧
    ∀ (pre post : List Row) (r : Row) (currentDate : Date),
      parse_date r.date = none →
      load_total_today_emissions (pre ++ r :: post) currentDate
        = load_total_today_emissions (pre ++ post) currentDate := by
  refine ⟨by decide, fun pre post r currentDate h => ?_⟩
  simp [load_total_today_emissions, List.filterMap_append, h]

/-- C5 witness: dropping the concrete `"not-a-date"` row from a two-row
dataset leaves the total unchanged. -/
theorem unparseable_row_excluded_witness :
    load_total_today_emissions
        [⟨"WORLD", "not-a-date", "Power", 7⟩, ⟨"WORLD", "03/04/2024", "Power", 2⟩]
        ⟨2025, 3, 4⟩
      = load_total_today_emissions [⟨"WORLD", "03/04/2024", "Power", 2⟩] ⟨2025, 3, 4⟩ :=
  unparseable_row_excluded.2 [] [⟨"WORLD", "03/04/2024", "Power", 2⟩]
    ⟨"WORLD", "not-a-date", "Power", 7⟩ ⟨2025, 3, 4⟩ (by decide)

/-- The three-row end-to-end dataset of the spec: two rows for the target date
(March 4) with quantities `1.5` and `2.5`, one row for a different date with
quantity `100.0`. -/
def exampleRows : List Row :=
  [⟨"WORLD", "03/04/2024", "Power", 1.5⟩,
   ⟨"WORLD", "03/04/2024", "Industry", 2.5⟩,
   ⟨"WORLD", "05/06/2024", "Power", 100.0⟩]

/-- C6: the loader returns the sum of `co2_mt` over exactly the rows whose
normalised date equals the current date with year forced to 2024, scaled by
`1,000,000`; on the spec's three-row dataset it returns `4,000,000`. -/
theorem load_sums_target_rows :
    (∀ (rows : List Row) (currentDate : Date),
      load_total_today_emissions rows currentDate
        = ((rows.filter fun r =>
              parse_date r.date == some (replaceYear2024 currentDate)).map
            Row.co2_mt).sum * 1000000) ∧
    load_total_today_emissions exampleRows ⟨2025, 3, 4⟩ = 4000000 := by
  refine ⟨fun rows currentDate => ?_, ?_⟩
  · induction rows with
    | nil => rfl
    | cons r rs ih =>
        rcases h : parse_date r.date with _ | d
        · simpa [load_total_today_emissions, h,
            List.filter_cons] using ih
        · by_cases hd : d = replaceYear2024 currentDate
          · subst hd
            simp only [load_total_today_emissions, List.filterMap_cons, h, Option.map_some,
              List.filter_cons, beq_self_eq_true, if_true, List.map_cons, List.sum_cons,
              add_mul] at ih ⊢
            simp [ih, add_mul]
          · simp only [load_total_today_emissions, List.filterMap_cons, h, Option.map_some,
              List.filter_cons] at ih ⊢
            have hb : (d == replaceYear2024 currentDate) = false := by
              simpa using hd
            have hb2 : (parse_date r.date == some (replaceYear2024 currentDate)) = false := by
              simp [h, hd]
            simp [hb, hb2, ih]
  · have h1 : parse_date "03/04/2024" = some ⟨2024, 3, 4⟩ := by decide
    have h2 : parse_date "05/06/2024" = some ⟨2024, 5, 6⟩ := by decide
    simp only [load_total_today_emissions, exampleRows, replaceYear2024, h1, h2,
      List.filterMap_cons, List.filterMap_nil, Option.map_some, List.filter_cons,
      List.filter_nil]
    norm_num

/-- `get_emissions_total` (final.py lines 102-108), with the fallible call to
`load_total_today_emissions` abstracted to its outcome: on success the loaded
total is returned with no warning; on any exception the handler displays
`st.error("Failed to load emissions data: ...")` and returns the fallback `0`.
The result pairs the value handed to the caller with the warning message
shown, if any. -/
def get_emissions_total (loadResult : Except String ℚ) : ℚ × Option String :=
  match loadResult with
  | Except.ok v => (v, none)
  | Except.error e => (0, some ("Failed to load emissions data: " ++ e))

/-- The per-tick values computed inside the `while True` loop of `main`
(final.py lines 113-136). -/
structure TickValues where
  ha_lost : ℚ
  ha_to_washdc : ℚ
  plastic_produced : ℚ
  plastic_to_cars : ℚ
  ocean_plastic : ℚ
  ocean_to_statues : ℚ
  microplastic : ℚ
  credit_card_equiv : ℚ
  acres_lost : ℚ
  acres_to_football : ℚ
  co2_emitted : ℚ
  pyramids : ℚ

/-- One iteration of the value computations in `main` (final.py lines
117-136): each displayed quantity and its comparison ratio, as a function of
the cached daily emissions total and the sampled instant. -/
def mainTick (total_today_emissions : ℚ) (now : Datetime) : TickValues :=
  let ha_lost := hectares_lost_so_far now
  let ha_to_washdc := (ha_lost / 1500) * 365
  let plastic_produced := plastic_produced_so_far now
  let plastic_to_cars := plastic_produced / 1500
  let ocean_plastic := ocean_plastic_entered_so_far now
  let ocean_to_statues := ocean_plastic / 204116
  let microplastic := microplastic_ingested_so_far now
  let credit_card_equiv :=
    if time_elapsed_seconds now > 0 then
      ((microplastic / 5000) / (time_elapsed_seconds now / SECONDS_PER_DAY * 7)) * 100
    else 0
  let acres_lost := acres_lost_so_far now
  let acres_to_football := acres_lost / 1.32
  let co2_emitted := emissions_so_far now total_today_emissions
  let pyramids := co2_emitted / 5750000
  ⟨ha_lost, ha_to_washdc, plastic_produced, plastic_to_cars, ocean_plastic,
   ocean_to_statues, microplastic, credit_card_equiv, acres_lost,
   acres_to_football, co2_emitted, pyramids⟩

/-- Python division semantics: `a / b` raises `ZeroDivisionError` when the
denominator is zero and otherwise yields the quotient. -/
def pydiv (a b : ℚ) : Except String ℚ :=
  if b = 0 then Except.error "ZeroDivisionError" else Except.ok (a / b)

/-- `ha_to_washdc` (final.py line 118) with its division made fallible. -/
def ha_to_washdc_checked (now : Datetime) : Except String ℚ :=
  (pydiv (hectares_lost_so_far now) 1500).map (fun q => q * 365)

/-- `plastic_to_cars` (final.py line 121) with its division made fallible. -/
def plastic_to_cars_checked (now : Datetime) : Except String ℚ :=
  pydiv (plastic_produced_so_far now) 1500

/-- `ocean_to_statues` (final.py line 124) with its division made fallible. -/
def ocean_to_statues_checked (now : Datetime) : Except String ℚ :=
  pydiv (ocean_plastic_entered_so_far now) 204116

/-- `credit_card_equiv` (final.py line 130) with its divisions made fallible:
the guarded branch divides the accrued microplastic by `5000` and then by the
elapsed-time fraction `elapsed / 86400 * 7`. -/
def credit_card_equiv_checked (now : Datetime) : Except String ℚ :=
  if time_elapsed_seconds now > 0 then do
    let a ← pydiv (microplastic_ingested_so_far now) 5000
    let b ← pydiv a (time_elapsed_seconds now / SECONDS_PER_DAY * 7)
    pure (b * 100)
  else pure 0

/-- `acres_to_football` (final.py line 133) with its division made fallible. -/
def acres_to_football_checked (now : Datetime) : Except String ℚ :=
  pydiv (acres_lost_so_far now) 1.32

/-- `pyramids` (final.py line 136) with its division made fallible. -/
def pyramids_checked (total : ℚ) (now : Datetime) : Except String ℚ :=
  pydiv (emissions_so_far now total) 5750000

/-- `white_house_comparison` (test.py line 220): explicitly guarded ratio
`ha_lost / WHITE_HOUSE_AREA_HA if WHITE_HOUSE_AREA_HA > 0 else 0.0`. -/
def white_house_comparison (now : Datetime) : ℚ :=
  if WHITE_HOUSE_AREA_HA > 0 then hectares_lost_so_far now / WHITE_HOUSE_AREA_HA else 0

/-- `pyramid_comparison` (test.py line 234): explicitly guarded ratio against
`GREAT_PYRAMID_WEIGHT_METRIC_TONS`. -/
def pyramid_comparison (total : ℚ) (now : Datetime) : ℚ :=
  if GREAT_PYRAMID_WEIGHT_METRIC_TONS > 0 then
    emissions_so_far now total / GREAT_PYRAMID_WEIGHT_METRIC_TONS
  else 0

theorem pydiv_ne (a b : ℚ) (hb : b ≠ 0) : pydiv a b = Except.ok (a / b) := by
  simp [pydiv, hb]

theorem mainTick_credit (total : ℚ) (now : Datetime) :
    (mainTick total now).credit_card_equiv =
      if time_elapsed_seconds now > 0 then
        ((microplastic_ingested_so_far now / 5000) /
          (time_elapsed_seconds now / SECONDS_PER_DAY * 7)) * 100
      else 0 := rfl

theorem mainTick_co2 (total : ℚ) (now : Datetime) :
    (mainTick total now).co2_emitted = emissions_so_far now total := rfl

theorem mainTick_pyramids (total : ℚ) (now : Datetime) :
    (mainTick total now).pyramids = emissions_so_far now total / 5750000 := rfl

/-- C7: a failed data load reaches the caller as the fallback value `0`
together with a surfaced warning message, never as a propagated exception
(`get_emissions_total` is a total function of the load outcome); the
statically configured quantities computed in the same tick are untouched by
the emissions total, and the emissions figure itself degrades to `0`. -/
theorem load_failure_fallback :
    (∀ e : String, get_emissions_total (Except.error e)
        = (0, some ("Failed to load emissions data: " ++ e))) ∧
    (∀ v : ℚ, get_emissions_total (Except.ok v) = (v, none)) ∧
    (∀ (total : ℚ) (now : Datetime),
      (mainTick total now).ha_lost = hectares_lost_so_far now ∧
      (mainTick total now).plastic_produced = plastic_produced_so_far now ∧
      (mainTick total now).ocean_plastic = ocean_plastic_entered_so_far now ∧
      (mainTick total now).microplastic = microplastic_ingested_so_far now ∧
      (mainTick total now).acres_lost = acres_lost_so_far now) ∧
    (∀ now : Datetime, (mainTick 0 now).co2_emitted = 0) := by
  refine ⟨fun e => rfl, fun v => rfl,
    fun total now => ⟨rfl, rfl, rfl, rfl, rfl⟩, fun now => ?_⟩
  rw [mainTick_co2, emissions_so_far_eq]; ring

/-- The mutable state behind `st.cache_data`: the cached value together with
the instant at which it was stored, or nothing before the first computation. -/
structure CacheState where
  entry : Option (ℚ × ℚ)

/-- Modelled from the spec: the TTL cache `DailyTotalCache.get` wrapping
`get_emissions_total` is provided in the source by the external decorator
`st.cache_data(ttl=SECONDS_PER_DAY)` (final.py line 102), whose implementation
is not part of the repository.  Following the spec, `get` at instant `now`
serves the stored value while `now − storedAt < 86400` and otherwise invokes
`loaderFn` and replaces both the value and the timestamp; `loaderFn` is
indexed by the running invocation count so that repeat invocations are
observable, and the returned triple is (value served, new invocation count,
new cache state). -/
def cacheGet (loaderFn : ℕ → ℚ) (now : ℚ) (calls : ℕ) (s : CacheState) :
    ℚ × ℕ × CacheState :=
  match s.entry with
  | some (v, ts) =>
      if now - ts < SECONDS_PER_DAY then (v, calls, s)
      else (loaderFn calls, calls + 1, ⟨some (loaderFn calls, now)⟩)
  | none => (loaderFn calls, calls + 1, ⟨some (loaderFn calls, now)⟩)

/-- C8: from an empty cache, the first `get` invokes the loader and stores
value and timestamp; a second `get` within 86400 seconds serves the cached
value without invoking the loader again; a `get` at 86400 seconds or more
after the stored timestamp invokes the loader a second time and replaces both
the cached value and the timestamp. -/
theorem cache_ttl (loaderFn : ℕ → ℚ) (t0 t1 t2 : ℚ)
    (h1 : t1 - t0 < 86400) (h2 : 86400 ≤ t2 - t0) :
    cacheGet loaderFn t0 0 ⟨none⟩ = (loaderFn 0, 1, ⟨some (loaderFn 0, t0)⟩) ∧
    cacheGet loaderFn t1 1 ⟨some (loaderFn 0, t0)⟩
      = (loaderFn 0, 1, ⟨some (loaderFn 0, t0)⟩) ∧
    cacheGet loaderFn t2 1 ⟨some (loaderFn 0, t0)⟩
      = (loaderFn 1, 2, ⟨some (loaderFn 1, t2)⟩) := by
  have hday : SECONDS_PER_DAY = 86400 := by norm_num [SECONDS_PER_DAY]
  have h2' : ¬ t2 - t0 < 86400 := not_lt.mpr h2
  exact ⟨rfl, by simp [cacheGet, hday, h1], by simp [cacheGet, hday, h2']⟩

/-- C8 witness: the TTL behaviour at the concrete instants `0`, `100` and
`86400` with the loader `fun n => (n : ℚ) + 10`. -/
theorem cache_ttl_witness :
    cacheGet (fun n => (n : ℚ) + 10) 100 1 ⟨some ((0 : ℚ) + 10, 0)⟩
        = ((0 : ℚ) + 10, 1, ⟨some ((0 : ℚ) + 10, 0)⟩) ∧
    cacheGet (fun n => (n : ℚ) + 10) 86400 1 ⟨some ((0 : ℚ) + 10, 0)⟩
        = ((1 : ℚ) + 10, 2, ⟨some ((1 : ℚ) + 10, 86400)⟩) :=
  ⟨(cache_ttl (fun n => (n : ℚ) + 10) 0 100 86400 (by norm_num) (by norm_num)).2.1,
   (cache_ttl (fun n => (n : ℚ) + 10) 0 100 86400 (by norm_num) (by norm_num)).2.2⟩

/-- C9: each comparison ratio of the main loop, evaluated under Python's
raising division semantics, completes without a `ZeroDivisionError` and agrees
with the displayed value (the constant denominators are non-zero and the
elapsed-time denominator is guarded); every ratio derived from a daily total
of `0` resolves to `0`; and the guarded credit-card ratio returns `0` at zero
elapsed time. -/
theorem ratio_zero_guards :
    (∀ (total : ℚ) (now : Datetime),
      ha_to_washdc_checked now = Except.ok (mainTick total now).ha_to_washdc ∧
      plastic_to_cars_checked now = Except.ok (mainTick total now).plastic_to_cars ∧
      ocean_to_statues_checked now = Except.ok (mainTick total now).ocean_to_statues ∧
      credit_card_equiv_checked now = Except.ok (mainTick total now).credit_card_equiv ∧
      acres_to_football_checked now = Except.ok (mainTick total now).acres_to_football ∧
      pyramids_checked total now = Except.ok (mainTick total now).pyramids) ∧
    (∀ now : Datetime,
      (mainTick 0 now).pyramids = 0 ∧ pyramid_comparison 0 now = 0 ∧
      white_house_comparison now = hectares_lost_so_far now / WHITE_HOUSE_AREA_HA) ∧
    (∀ (total : ℚ) (now : Datetime),
      time_elapsed_seconds now = 0 → (mainTick total now).credit_card_equiv = 0) := by
  refine ⟨fun total now => ⟨?_, ?_, ?_, ?_, ?_, ?_⟩, fun now => ⟨?_, ?_, ?_⟩,
    fun total now h => ?_⟩
  · rw [ha_to_washdc_checked, pydiv_ne _ _ (by norm_num : (1500 : ℚ) ≠ 0)]; rfl
  · rw [plastic_to_cars_checked, pydiv_ne _ _ (by norm_num : (1500 : ℚ) ≠ 0)]; rfl
  · rw [ocean_to_statues_checked, pydiv_ne _ _ (by norm_num : (204116 : ℚ) ≠ 0)]; rfl
  · by_cases hp : time_elapsed_seconds now > 0
    · have hd : time_elapsed_seconds now / SECONDS_PER_DAY * 7 ≠ 0 := by
        have hday : (0 : ℚ) < SECONDS_PER_DAY := by norm_num [SECONDS_PER_DAY]
        positivity
      rw [credit_card_equiv_checked, if_pos hp,
        mainTick_credit, if_pos hp]
      simp [pydiv_ne _ _ (by norm_num : (5000 : ℚ) ≠ 0), pydiv_ne _ _ hd]
      rfl
    · rw [credit_card_equiv_checked, if_neg hp, mainTick_credit, if_neg hp]; rfl
  · rw [acres_to_football_checked, pydiv_ne _ _ (by norm_num : (1.32 : ℚ) ≠ 0)]; rfl
  · rw [pyramids_checked, pydiv_ne _ _ (by norm_num : (5750000 : ℚ) ≠ 0)]; rfl
  · rw [mainTick_pyramids, emissions_so_far_eq]; ring
  · rw [pyramid_comparison,
      if_pos (by norm_num [GREAT_PYRAMID_WEIGHT_METRIC_TONS] :
        GREAT_PYRAMID_WEIGHT_METRIC_TONS > 0),
      emissions_so_far_eq]
    ring
  · rw [white_house_comparison,
      if_pos (by norm_num [WHITE_HOUSE_AREA_HA] : WHITE_HOUSE_AREA_HA > 0)]
  · rw [mainTick_credit, if_neg (by rw [h]; exact lt_irrefl 0)]

/-- C9 witness: the guarded credit-card ratio at midnight (zero elapsed time)
with daily total `5` resolves to `0`. -/
theorem ratio_zero_guards_witness : (mainTick 5 ⟨0⟩).credit_card_equiv = 0 :=
  ratio_zero_guards.2.2 5 ⟨0⟩ (by norm_num [time_elapsed_seconds, SECONDS_PER_DAY])

/-- C10: for any strictly positive elapsed time the credit-card-equivalent
percentage is the constant `(714 / (5000 × 7)) × 100 = 2.04`, independent of
the instant and of the emissions total, because the accrued microplastic is
itself proportional to elapsed time and the elapsed-time factors cancel; at
zero elapsed time the guard returns `0` instead. -/
theorem credit_card_equiv_constant (total : ℚ) (now : Datetime) :
    (0 < time_elapsed_seconds now →
      (mainTick total now).credit_card_equiv = 714 / (5000 * 7) * 100 ∧
      (714 : ℚ) / (5000 * 7) * 100 = 2.04) ∧
    (time_elapsed_seconds now = 0 → (mainTick total now).credit_card_equiv = 0) := by
  constructor
  · intro h
    have he : time_elapsed_seconds now ≠ 0 := ne_of_gt h
    constructor
    · rw [mainTick_credit, if_pos h, microplastic_ingested_so_far,
        MICROPLASTIC_MG_PER_SECOND, TOTAL_DAILY_MICROPLASTIC_MG]
      have hday : SECONDS_PER_DAY = 86400 := by norm_num [SECONDS_PER_DAY]
      rw [hday]
      field_simp
      ring
    · norm_num
  · intro h
    rw [mainTick_credit, if_neg (by rw [h]; exact lt_irrefl 0)]

/-- C10 witness: at noon (elapsed `43200` seconds) with daily emissions total
`3`, the credit-card-equivalent percentage is exactly the constant value. -/
theorem credit_card_equiv_constant_witness :
    (mainTick 3 ⟨43200⟩).credit_card_equiv = 714 / (5000 * 7) * 100 :=
  ((credit_card_equiv_constant 3 ⟨43200⟩).1
    (by norm_num [time_elapsed_seconds, SECONDS_PER_DAY])).1
